import Mathlib

/-!
Verification development for the hero-animation core of the Animation
repository: easing library, animation clock, force integrator, adaptive
quality governor and gesture zoom state, shallowly embedded over `ℝ`
(JavaScript numbers are modelled with exact real semantics; `Math.pow`
with real exponent is `Real.rpow`, `Math.cos` is `Real.cos`, and so on).
Callback invocations, wall-clock timestamps (`performance.now()`) and
rendering side effects are not part of the embedded state; every other
field of the source data structures is carried faithfully.
-/

namespace Animation

noncomputable section

open Real

/-- `MathUtils.clamp(value, min, max) = Math.max(min, Math.min(max, value))`
(three.js). -/
def clampR (value lo hi : ℝ) : ℝ :=
  max lo (min hi value)

/-! ## Easing library (src/unnamed/part_001, `animations.ts`) -/

/-- `easeInOutSine(t) = -(Math.cos(Math.PI * t) - 1) / 2`. -/
def easeInOutSine (t : ℝ) : ℝ :=
  -(Real.cos (Real.pi * t) - 1) / 2

/-- `easeOutCubic(t) = 1 - Math.pow(1 - t, 3)`. -/
def easeOutCubic (t : ℝ) : ℝ :=
  1 - (1 - t) ^ 3

/-- `easeInOutBack`, with constants `c1 = 1.70158`, `c2 = c1 * 1.525`. -/
def easeInOutBack (t : ℝ) : ℝ :=
  let c1 : ℝ := 1.70158
  let c2 : ℝ := c1 * 1.525
  if t < 0.5 then
    ((2 * t) ^ 2 * ((c2 + 1) * 2 * t - c2)) / 2
  else
    ((2 * t - 2) ^ 2 * ((c2 + 1) * (t * 2 - 2) + c2) + 2) / 2

/-- `easeInOutElastic`, with `c5 = 2π / 4.5`. -/
def easeInOutElastic (t : ℝ) : ℝ :=
  let c5 : ℝ := 2 * Real.pi / 4.5
  if t = 0 then 0
  else if t = 1 then 1
  else if t < 0.5 then
    -((2:ℝ) ^ (20 * t - 10) * Real.sin ((20 * t - 11.125) * c5)) / 2
  else
    ((2:ℝ) ^ (-20 * t + 10) * Real.sin ((20 * t - 11.125) * c5)) / 2 + 1

/-- `linear(t) = t`. -/
def linear (t : ℝ) : ℝ := t

/-- `spring(t, tension = 0.8, friction = 0.2)`: under-damped branch when
`d = friction / (2 * sqrt(tension)) < 1`. -/
def spring (t : ℝ) (tension : ℝ) (friction : ℝ) : ℝ :=
  let w := Real.sqrt tension
  let d := friction / (2 * Real.sqrt tension)
  if d < 1 then
    let wd := w * Real.sqrt (1 - d ^ 2)
    1 - Real.exp (-d * w * t) * Real.cos (wd * t)
  else
    1 - Real.exp (-w * t)

/-- `calculateBounce(t)` with `n1 = 7.5625`, `d1 = 2.75`; the source mutates
`t` in the later branches (`t -= 1.5 / d1` etc.), written here as the shifted
argument. -/
def calculateBounce (t : ℝ) : ℝ :=
  let n1 : ℝ := 7.5625
  let d1 : ℝ := 2.75
  if t < 1 / d1 then n1 * t * t
  else if t < 2 / d1 then n1 * (t - 1.5 / d1) * (t - 1.5 / d1) + 0.75
  else if t < 2.5 / d1 then n1 * (t - 2.25 / d1) * (t - 2.25 / d1) + 0.9375
  else n1 * (t - 2.625 / d1) * (t - 2.625 / d1) + 0.984375

/-- `createEasingFunction(type, direction = 'inOut')`.  The switch is over the
raw string, with the `default` case (any unknown type) returning `linear`.
The `'cubic'` case with direction `'inOut'` returns the identifier
`easeInOutCubic`, which is defined nowhere in the repository: evaluating it
raises a `ReferenceError` at runtime (the project builds with Vite, which
transpiles without type-checking).  That failure path is modelled as `none`;
every branch that returns an actual function is `some`. -/
def createEasingFunction (type : String) (direction : String) : Option (ℝ → ℝ) :=
  if type = "sine" then
    some (if direction = "inOut" then easeInOutSine
          else if direction = "out" then fun t => Real.sin (t * Real.pi / 2)
          else fun t => 1 - Real.cos (t * Real.pi / 2))
  else if type = "cubic" then
    (if direction = "inOut" then none
     else some (if direction = "out" then easeOutCubic else fun t => t * t * t))
  else if type = "back" then some easeInOutBack
  else if type = "elastic" then some easeInOutElastic
  else if type = "bounce" then some calculateBounce
  else if type = "spring" then some (fun t => spring t 0.8 0.2)
  else some linear

/-! ## Vectors and Euler angles (three.js `Vector3`, `Vector2`, `Euler`) -/

/-- three.js `Vector3`, with exact real components. -/
structure Vec3 where
  x : ℝ
  y : ℝ
  z : ℝ


instance : Add Vec3 where
  add a b := ⟨a.x + b.x, a.y + b.y, a.z + b.z⟩

instance : SMul ℝ Vec3 where
  smul c v := ⟨c * v.x, c * v.y, c * v.z⟩

instance : Zero Vec3 where
  zero := ⟨0, 0, 0⟩

/-- three.js `Vector3.length()`: Euclidean norm. -/
def Vec3.norm (v : Vec3) : ℝ :=
  Real.sqrt (v.x ^ 2 + v.y ^ 2 + v.z ^ 2)

/-- three.js `Vector2`. -/
structure Vec2 where
  x : ℝ
  y : ℝ


/-- three.js `Euler` (rotation order is constant here and omitted). -/
structure EulerR where
  x : ℝ
  y : ℝ
  z : ℝ


/-! ## Force integrator (src/src/hero-animation/hooks/usePhysics.ts) -/

/-- The configuration destructured at the top of `usePhysics` (defaults come
from `PHYSICS_CONFIG`). -/
structure PhysConfig where
  mass : ℝ
  damping : ℝ
  angularDamping : ℝ
  friction : ℝ
  restitution : ℝ
  gravity : Vec3
  buoyancy : ℝ
  enabled : Bool

/-- `physicsState` ref contents. -/
structure PhysState where
  position : Vec3
  velocity : Vec3
  acceleration : Vec3
  rotation : EulerR
  angularVelocity : Vec3
  angularAcceleration : Vec3
  forces : List Vec3
  torques : List Vec3

/-- `addForce(force)`: push a clone onto the pending list, no-op when the
integrator is disabled. -/
def addForce (cfg : PhysConfig) (s : PhysState) (force : Vec3) : PhysState :=
  if cfg.enabled = false then s
  else { s with forces := s.forces ++ [force] }

/-- `addTorque(torque)`. -/
def addTorque (cfg : PhysConfig) (s : PhysState) (torque : Vec3) : PhysState :=
  if cfg.enabled = false then s
  else { s with torques := s.torques ++ [torque] }

/-- `clearForces()`: truncate both pending lists. -/
def clearForces (s : PhysState) : PhysState :=
  { s with forces := [], torques := [] }

/-- `applyDamping(deltaTime)`: multiply the velocities by
`Math.pow(1 - damping, deltaTime)` (real exponent, so `Real.rpow`). -/
def applyDamping (cfg : PhysConfig) (s : PhysState) (deltaTime : ℝ) : PhysState :=
  if cfg.enabled = false then s
  else
    let dampingFactor := (1 - cfg.damping) ^ deltaTime
    let angularDampingFactor := (1 - cfg.angularDamping) ^ deltaTime
    { s with velocity := dampingFactor • s.velocity
             angularVelocity := angularDampingFactor • s.angularVelocity }

/-- `calculateNetForce()`: vector sum of the pending forces, starting from
`new Vector3()`. -/
def calculateNetForce (s : PhysState) : Vec3 :=
  s.forces.foldl (fun acc f => acc + f) 0

/-- `calculateNetTorque()`. -/
def calculateNetTorque (s : PhysState) : Vec3 :=
  s.torques.foldl (fun acc t => acc + t) 0

/-- `integrateMotion(deltaTime)`: early return when disabled or
`deltaTime <= 0`; otherwise semi-implicit Euler with damping, then
`clearForces()`.  three.js `divideScalar(mass)` multiplies by `1 / mass`. -/
def integrateMotion (cfg : PhysConfig) (s : PhysState) (deltaTime : ℝ) : PhysState :=
  if cfg.enabled = false ∨ deltaTime ≤ 0 then s
  else
    let netForce := calculateNetForce s
    let netTorque := calculateNetTorque s
    let accel := (1 / cfg.mass) • netForce
    let angAccel := (1 / cfg.mass) • netTorque
    let s1 := { s with acceleration := accel
                       angularAcceleration := angAccel
                       velocity := s.velocity + deltaTime • accel
                       angularVelocity := s.angularVelocity + deltaTime • angAccel }
    let s2 := applyDamping cfg s1 deltaTime
    let s3 := { s2 with position := s2.position + deltaTime • s2.velocity
                        rotation := EulerR.mk
                          (s2.rotation.x + deltaTime * s2.angularVelocity.x)
                          (s2.rotation.y + deltaTime * s2.angularVelocity.y)
                          (s2.rotation.z + deltaTime * s2.angularVelocity.z) }
    clearForces s3

/-! ## Animation clock (`useAnimation`, src/src/hero-animation/components/models/HammerModel.tsx,
second document: `useAnimation.ts`) -/

/-- Runtime direction of a clock (`'forward' | 'reverse'`). -/
inductive Dir where
  | forward
  | reverse
deriving DecidableEq

/-- `Dir` flip, the body of `reverse()`. -/
def Dir.flip : Dir → Dir
  | .forward => .reverse
  | .reverse => .forward

/-- Configured direction option (`'forward' | 'reverse' | 'alternate'`). -/
inductive DirConfig where
  | forward
  | reverse
  | alternate
deriving DecidableEq

/-- The options destructured from `AnimationConfig` (callbacks are modelled
only through `hasOnStart`, the presence test `onStart &&` uses). -/
structure AnimConfig where
  duration : ℝ
  delay : ℝ
  loop : Bool
  dirConfig : DirConfig
  easing : ℝ → ℝ
  hasOnStart : Bool

/-- `AnimationState` together with the sibling refs `animationTime`,
`delayTimer` and `hasStarted` (`startTime`, a wall-clock timestamp used for
nothing else, is omitted). -/
structure AnimState where
  isPlaying : Bool
  isPaused : Bool
  isComplete : Bool
  currentTime : ℝ
  progress : ℝ
  direction : Dir
  loopCount : ℕ
  animationTime : ℝ
  delayTimer : ℝ
  hasStarted : Bool

/-- `updateAnimation(deltaTime)`: the per-tick body.  `deltaTime` is in
seconds, `deltaMs = deltaTime * 1000`.  The raw progress is
`currentTime / duration`, flipped when the runtime direction is reverse; on
`rawProgress >= 1` the loop branch resets `currentTime` to 0, increments
`loopCount` and (for the `'alternate'` option) flips the direction, while the
non-loop branch clamps to 1, marks complete and stops; finally
`progress := easing(clamp(rawProgress, 0, 1))`. -/
def updateAnimation (cfg : AnimConfig) (s : AnimState) (deltaTime : ℝ) : AnimState :=
  if s.isPlaying = false ∨ s.isPaused = true then s
  else
    let deltaMs := deltaTime * 1000
    if s.delayTimer < cfg.delay then { s with delayTimer := s.delayTimer + deltaMs }
    else
      let hasStarted' := s.hasStarted || cfg.hasOnStart
      let animationTime' := s.animationTime + deltaMs
      let ct := s.currentTime + deltaMs
      let raw0 := ct / cfg.duration
      let raw1 := if s.direction = Dir.reverse then 1 - raw0 else raw0
      if raw1 ≥ 1 then
        if cfg.loop then
          { s with hasStarted := hasStarted'
                   animationTime := animationTime'
                   loopCount := s.loopCount + 1
                   currentTime := 0
                   direction := if cfg.dirConfig = DirConfig.alternate then
                                  s.direction.flip else s.direction
                   progress := cfg.easing (clampR 0 0 1) }
        else
          { s with hasStarted := hasStarted'
                   animationTime := animationTime'
                   currentTime := ct
                   isComplete := true
                   isPlaying := false
                   progress := cfg.easing (clampR 1 0 1) }
      else
        { s with hasStarted := hasStarted'
                 animationTime := animationTime'
                 currentTime := ct
                 progress := cfg.easing (clampR raw1 0 1) }

/-- `play()`. -/
def play (cfg : AnimConfig) (s : AnimState) : AnimState :=
  { s with isPlaying := true
           isPaused := false
           hasStarted := s.hasStarted || cfg.hasOnStart }

/-- `pause()`. -/
def pause (s : AnimState) : AnimState :=
  { s with isPaused := true, isPlaying := false }

/-- `stop()`. -/
def stop (s : AnimState) : AnimState :=
  { s with isPlaying := false
           isPaused := false
           isComplete := false
           currentTime := 0
           progress := 0
           loopCount := 0
           animationTime := 0
           delayTimer := 0
           hasStarted := false }

/-- `seek(progress)`: clamp the argument to `[0,1]`, then set `progress`,
`currentTime` and `animationTime` from the clamped value. -/
def seek (cfg : AnimConfig) (s : AnimState) (p : ℝ) : AnimState :=
  let clampedProgress := clampR p 0 1
  { s with progress := clampedProgress
           currentTime := clampedProgress * cfg.duration
           animationTime := clampedProgress * cfg.duration }

/-- A scheduler run: one `updateAnimation` tick per frame delta. -/
def runTicks (cfg : AnimConfig) (s : AnimState) (deltas : List ℝ) : AnimState :=
  deltas.foldl (updateAnimation cfg) s

/-- Modelled from the spec: the loop-wrap counter of the testable property
"for N synthetic wraps `loopCount==N`" — a clock reduced to its elapsed time,
wrapping to 0 and counting one wrap whenever the accumulated time reaches the
duration.  Deltas are in milliseconds. -/
def wrapStep (d : ℝ) : ℝ × ℕ → ℝ → ℝ × ℕ :=
  fun tn deltaMs =>
    if tn.1 + deltaMs ≥ d then (0, tn.2 + 1) else (tn.1 + deltaMs, tn.2)

/-- Fold of `wrapStep` over a run, starting from elapsed time `t0` and zero
wraps. -/
def wrapSim (d : ℝ) (t0 : ℝ) (deltasMs : List ℝ) : ℝ × ℕ :=
  deltasMs.foldl (wrapStep d) (t0, 0)

/-! ## Performance governor (src/src/hero-animation/hooks/usePerformance.ts) -/

/-- `QualityLevel['level']`. -/
inductive Quality where
  | low
  | medium
  | high
  | ultra
deriving DecidableEq

/-- Position of a quality level on the ladder `low < medium < high < ultra`. -/
def Quality.idx : Quality → ℕ
  | .low => 0
  | .medium => 1
  | .high => 2
  | .ultra => 3

/-- The `usePerformance` options the adaptive controller reads. -/
structure PerfConfig where
  targetFPS : ℝ
  adaptiveQuality : Bool
  monitoringInterval : ℝ

/-- The refs the adaptive controller reads and writes: the rolling histories,
the current quality level, the monitoring-interval timer, and whether the
`gl` and `scene` refs hold a renderer and a scene.  Both refs start as
`useRef(null)` and are assigned only inside the `try` block of the frame-loop
effect (usePerformance.ts lines 318-328), whose `require('@react-three/fiber')`
and `useThree()` calls throw in this Vite ESM build, so in every state the
program reaches both flags are `false`. -/
structure PerfState where
  fpsHistory : List ℝ
  frameTimeHistory : List ℝ
  currentQuality : Quality
  adaptiveTimer : ℝ
  glPresent : Bool
  scenePresent : Bool

/-- `calculateAverageFPS()`: 0 on an empty history, else sum / length. -/
def calculateAverageFPS (s : PerfState) : ℝ :=
  if s.fpsHistory.length = 0 then 0
  else s.fpsHistory.foldl (fun a b => a + b) 0 / s.fpsHistory.length

/-- `calculateAverageFrameTime()`. -/
def calculateAverageFrameTime (s : PerfState) : ℝ :=
  if s.frameTimeHistory.length = 0 then 0
  else s.frameTimeHistory.foldl (fun a b => a + b) 0 / s.frameTimeHistory.length

/-- `adjustQuality(targetLevel)`: early return when the level is already
current **or the `gl` or `scene` ref is null**
(`if (currentQuality.current === targetLevel || !gl.current || !scene.current) return`,
usePerformance.ts line 187); otherwise write `currentQuality` (the renderer
mutations it also performs — pixel ratio, shadow maps — belong to external
collaborators and carry no further state here). -/
def adjustQuality (s : PerfState) (targetLevel : Quality) : PerfState :=
  if s.currentQuality = targetLevel ∨ s.glPresent = false ∨ s.scenePresent = false
  then s
  else { s with currentQuality := targetLevel }

/-- `adaptiveQualityControl(deltaTime)`: accumulate `deltaTime * 1000` into
`adaptiveTimer`; when the timer reaches `monitoringInterval`, reset it and
compare the rolling averages against the thresholds, stepping the quality
ladder by one level. -/
def adaptiveQualityControl (cfg : PerfConfig) (s : PerfState) (deltaTime : ℝ) :
    PerfState :=
  if cfg.adaptiveQuality = false then s
  else
    let timer := s.adaptiveTimer + deltaTime * 1000
    if timer < cfg.monitoringInterval then { s with adaptiveTimer := timer }
    else
      let s0 := { s with adaptiveTimer := 0 }
      let avgFPS := calculateAverageFPS s
      let avgFrameTime := calculateAverageFrameTime s
      if avgFPS < cfg.targetFPS * 0.8 ∧ avgFrameTime > 20 then
        if s0.currentQuality = Quality.ultra then adjustQuality s0 Quality.high
        else if s0.currentQuality = Quality.high then adjustQuality s0 Quality.medium
        else if s0.currentQuality = Quality.medium then adjustQuality s0 Quality.low
        else s0
      else if avgFPS > cfg.targetFPS * 1.1 ∧ avgFrameTime < 12 then
        if s0.currentQuality = Quality.low then adjustQuality s0 Quality.medium
        else if s0.currentQuality = Quality.medium then adjustQuality s0 Quality.high
        else if s0.currentQuality = Quality.high ∧ avgFPS > cfg.targetFPS * 1.3 then
          adjustQuality s0 Quality.ultra
        else s0
      else s0

/-- From the claim's words: step one level down the ladder, never below
`low`. -/
def stepDown : Quality → Quality
  | .ultra => .high
  | .high => .medium
  | .medium => .low
  | .low => .low

/-- From the claim's words: step one level up the ladder, never above
`ultra`. -/
def stepUp : Quality → Quality
  | .low => .medium
  | .medium => .high
  | .high => .ultra
  | .ultra => .ultra

/-- From the claim's words: the evaluation outcome — step down exactly when
`avgFPS < target*0.8` and `avgFrameTime > 20`; step up exactly when
`avgFPS > target*1.1` and `avgFrameTime < 12`, the step from `high` to
`ultra` additionally requiring `avgFPS > target*1.3`; otherwise unchanged. -/
def qualitySpecStep (targetFPS avgFPS avgFrameTime : ℝ) (q : Quality) : Quality :=
  if avgFPS < targetFPS * 0.8 ∧ avgFrameTime > 20 then stepDown q
  else if avgFPS > targetFPS * 1.1 ∧ avgFrameTime < 12 ∧
          (q ≠ Quality.high ∨ avgFPS > targetFPS * 1.3) then stepUp q
  else q

/-! ## Gesture state machine (src/unnamed/part_008, `useGestures.ts`) -/

/-- The zoom limits destructured from the config (defaults
`GESTURE_CONFIG.MIN_ZOOM = 0.5`, `GESTURE_CONFIG.MAX_ZOOM = 3.0`). -/
structure GestureLimits where
  minZoom : ℝ
  maxZoom : ℝ

/-- `GESTURE_CONFIG.MIN_ZOOM`. -/
def GESTURE_MIN_ZOOM : ℝ := 0.5

/-- `GESTURE_CONFIG.MAX_ZOOM`. -/
def GESTURE_MAX_ZOOM : ℝ := 3.0

/-- `gestureState` ref contents (`lastPosition`/`startPosition` bookkeeping
kept; camera writes in `updateCameraPosition` are external). -/
structure GState where
  isDragging : Bool
  isPinching : Bool
  isRotating : Bool
  zoom : ℝ
  rotation : Vec3
  pan : Vec2
  velocity : Vec2
  lastPosition : Vec2
  startPosition : Vec2
  gestureCount : ℕ

/-- `clampZoom(zoom)`. -/
def clampZoom (limits : GestureLimits) (zoom : ℝ) : ℝ :=
  clampR zoom limits.minZoom limits.maxZoom

/-- `setZoom(zoom)`: write the clamped value. -/
def setZoom (limits : GestureLimits) (s : GState) (zoom : ℝ) : GState :=
  { s with zoom := clampZoom limits zoom }

/-- `handlePinch(event)`: guarded by `enabled && pinchToZoom && isPinching`;
the candidate zoom is `clampZoom(zoom + delta * sensitivity.pinch)` and is
written only when it differs from the current zoom. -/
def handlePinch (enabled pinchToZoom : Bool) (pinchSensitivity : ℝ)
    (limits : GestureLimits) (s : GState) (delta : ℝ) : GState :=
  if enabled = false ∨ pinchToZoom = false ∨ s.isPinching = false then s
  else
    let scaleDelta := delta * pinchSensitivity
    let newZoom := clampZoom limits (s.zoom + scaleDelta)
    if newZoom ≠ s.zoom then { s with zoom := newZoom } else s

/-- `handleWheel(event)`: guarded by `enabled && pinchToZoom`; the candidate
zoom is `clampZoom(zoom + (-deltaY) * sensitivity.pinch * 0.001)`. -/
def handleWheel (enabled pinchToZoom : Bool) (pinchSensitivity : ℝ)
    (limits : GestureLimits) (s : GState) (deltaY : ℝ) : GState :=
  if enabled = false ∨ pinchToZoom = false then s
  else
    let wheelDelta := -deltaY * pinchSensitivity * 0.001
    let newZoom := clampZoom limits (s.zoom + wheelDelta)
    if newZoom ≠ s.zoom then { s with zoom := newZoom } else s

/-! ## Motion composer: the `HammerModel` frame callback
(src/src/hero-animation/components/models/HammerModel.tsx, first document) -/

/-- `TIMING.FLOAT_DURATION` (ms). -/
def FLOAT_DURATION : ℝ := 2000

/-- `TIMING.ROTATION_DURATION` (ms). -/
def ROTATION_DURATION : ℝ := 4000

/-- `TIMING.STAGGER_DELAY` (ms). -/
def STAGGER_DELAY : ℝ := 200

/-- `TIMING.FLOAT_AMPLITUDE`. -/
def FLOAT_AMPLITUDE : ℝ := 20

/-- `TIMING.LOOP_DURATION` (ms). -/
def LOOP_DURATION : ℝ := 4000

/-- `PHYSICS_CONFIG.GRAVITY`. -/
def GRAVITY : Vec3 := ⟨0, -0.3, 0⟩

/-- `PHYSICS_CONFIG.BUOYANCY_FORCE`. -/
def BUOYANCY_FORCE : ℝ := 0.25

/-- JavaScript `%` on numbers: remainder with the dividend's sign
(`a - b * trunc(a / b)`). -/
def jsMod (a b : ℝ) : ℝ :=
  a - b * (if 0 ≤ a / b then (⌊a / b⌋ : ℝ) else (⌈a / b⌉ : ℝ))

/-- `calculateFloatingPosition(time, basePosition, amplitude = 20)`. -/
def calculateFloatingPosition (time : ℝ) (basePosition : Vec3)
    (amplitude : ℝ) : Vec3 :=
  let normalizedTime := jsMod time FLOAT_DURATION / FLOAT_DURATION
  let sineWave := easeInOutSine normalizedTime
  let offset := Real.sin (sineWave * Real.pi * 2) * amplitude * 0.01
  ⟨basePosition.x, basePosition.y + offset, basePosition.z⟩

/-- Rotation axis option of `calculateRotation`. -/
inductive Axis where
  | x
  | y
  | z
deriving DecidableEq

/-- `calculateRotation(time, baseRotation, axis = 'y')`. -/
def calculateRotation (time : ℝ) (baseRotation : EulerR) (axis : Axis) : EulerR :=
  let normalizedTime := jsMod time ROTATION_DURATION / ROTATION_DURATION
  let rotationAngle := normalizedTime * Real.pi * 2
  match axis with
  | .x => { baseRotation with x := baseRotation.x + rotationAngle }
  | .y => { baseRotation with y := baseRotation.y + rotationAngle }
  | .z => { baseRotation with z := baseRotation.z + rotationAngle }

/-- `calculatePhysicsMotion(time, basePosition, velocity, gravity, buoyancy)`. -/
def calculatePhysicsMotion (time : ℝ) (basePosition : Vec3) (velocity : Vec3)
    (gravity : Vec3) (buoyancy : ℝ) : Vec3 :=
  let deltaTime := time * 0.001
  let netForce := (deltaTime • gravity) + Vec3.mk 0 (buoyancy * deltaTime) 0
  let newVelocity := velocity + netForce
  basePosition + deltaTime • newVelocity

/-- The transform fields the `HammerModel` frame callback writes: the group's
position, rotation and scale, plus the head-bob y offset and handle sway. -/
structure ToolTransform where
  position : Vec3
  rotation : EulerR
  scale : Vec3
  headPositionY : ℝ
  handleRotationZ : ℝ

/-- The `useFrame` body of `HammerModel`: early return (no write at all) when
the group ref is missing or `isPlaying` is false; otherwise compose the
staggered time, floating offset, rotation sweep and physics blend into the
frame's transform.  The `isPlaying` and `animationTime` arguments are the
values the component destructures from `useAnimation()`: that return spreads
an `animationData` `useMemo` whose deps are `[duration, delay]`, so both are
snapshots of the clock refs taken when the memo last ran (at mount:
`isPlaying = autoplay = true`, `animationTime = 0`) — later ref mutations
such as `pause()` trigger no re-render and never reach this guard.
`velocity`, by contrast, is the live `physicsState.current.velocity`
`Vector3`, mutated in place by `updatePhysics(delta)` each frame, so the
written position tracks the evolving physics state. -/
def hammerFrame (isPlaying : Bool) (animationTime staggerIndex : ℝ)
    (basePosition : Vec3) (baseRotation : EulerR) (scaleProp : Vec3)
    (velocity : Vec3) (tr : ToolTransform) : ToolTransform :=
  if isPlaying = false then tr
  else
    let currentTime := animationTime + staggerIndex * STAGGER_DELAY
    let floatingPosition := calculateFloatingPosition currentTime basePosition
      FLOAT_AMPLITUDE
    let rotation := calculateRotation currentTime baseRotation Axis.y
    let physicsPosition := calculatePhysicsMotion currentTime floatingPosition
      velocity GRAVITY BUOYANCY_FORCE
    { position := physicsPosition
      rotation := rotation
      scale := scaleProp
      headPositionY := 0.2 + Real.sin (currentTime * 0.003) * 0.02
      handleRotationZ := Real.cos (currentTime * 0.002) * 0.01 }

/-- The physics state after `n` integration steps driven by the frame deltas
`dts`. -/
def seqStates (cfg : PhysConfig) (s : PhysState) (dts : ℕ → ℝ) : ℕ → PhysState
  | 0 => s
  | n + 1 => integrateMotion cfg (seqStates cfg s dts n) (dts n)

/-! ## Concrete sample instances (used to exercise the theorems) -/

/-- A concrete clock configuration: 1 s loop, no delay, forward, with the
library's `easeOutCubic` easing. -/
def sampleConfig : AnimConfig :=
  { duration := 1000
    delay := 0
    loop := true
    dirConfig := DirConfig.forward
    easing := easeOutCubic
    hasOnStart := false }

/-- The initial value of the `animationState` ref with `autoplay = true`. -/
def initialAnimState : AnimState :=
  { isPlaying := true
    isPaused := false
    isComplete := false
    currentTime := 0
    progress := 0
    direction := Dir.forward
    loopCount := 0
    animationTime := 0
    delayTimer := 0
    hasStarted := false }

/-- A concrete physics configuration with the `PHYSICS_CONFIG` defaults
(`friction`/`restitution` are absent from `PHYSICS_CONFIG` and unused by the
integrator; 0 here). -/
def samplePhysConfig : PhysConfig :=
  { mass := 1
    damping := 0.15
    angularDamping := 0.1
    friction := 0
    restitution := 0
    gravity := GRAVITY
    buoyancy := BUOYANCY_FORCE
    enabled := true }

/-- A resting physics state with one pending unit force along x. -/
def physStateWithForce : PhysState :=
  { position := 0
    velocity := 0
    acceleration := 0
    rotation := ⟨0, 0, 0⟩
    angularVelocity := 0
    angularAcceleration := 0
    forces := [⟨1, 0, 0⟩]
    torques := [] }

/-- A physics state moving along x with no pending forces. -/
def movingPhysState : PhysState :=
  { position := 0
    velocity := ⟨1, 0, 0⟩
    acceleration := 0
    rotation := ⟨0, 0, 0⟩
    angularVelocity := 0
    angularAcceleration := 0
    forces := []
    torques := [] }

/-- The default zoom limits (`GESTURE_CONFIG`). -/
def sampleLimits : GestureLimits :=
  { minZoom := GESTURE_MIN_ZOOM, maxZoom := GESTURE_MAX_ZOOM }

/-- The initial `gestureState` ref value, with an active pinch. -/
def pinchingGState : GState :=
  { isDragging := false
    isPinching := true
    isRotating := false
    zoom := 1
    rotation := 0
    pan := ⟨0, 0⟩
    velocity := ⟨0, 0⟩
    lastPosition := ⟨0, 0⟩
    startPosition := ⟨0, 0⟩
    gestureCount := 1 }

/-- A concrete governor configuration (`TARGET_FPS = 60`, default
`monitoringInterval = 1000`). -/
def samplePerfConfig : PerfConfig :=
  { targetFPS := 60, adaptiveQuality := true, monitoringInterval := 1000 }

/-- A struggling sample the program can reach: 20 fps / 50 ms averages at
`high` (the `currentQuality` ref's initial — and, since `adjustQuality` never
fires, permanent — value), the monitoring timer about to fire, and the
`gl`/`scene` refs still null as the dead `try` block leaves them. -/
def strugglingPerfState : PerfState :=
  { fpsHistory := [20, 20]
    frameTimeHistory := [50, 50]
    currentQuality := Quality.high
    adaptiveTimer := 900
    glPresent := false
    scenePresent := false }

/-- The hammer's mounted transform (`SCENE_CONFIG.TOOL_POSITIONS.HAMMER`,
unit scale). -/
def sampleTransform : ToolTransform :=
  { position := ⟨-2.5, 1.2, 0⟩
    rotation := ⟨0, 0, 0⟩
    scale := ⟨1, 1, 1⟩
    headPositionY := 0.2
    handleRotationZ := 0 }

end

/-! ## Helper lemmas -/

theorem le_clampR (v lo hi : ℝ) : lo ≤ clampR v lo hi :=
  le_max_left _ _

theorem clampR_le {lo hi : ℝ} (h : lo ≤ hi) (v : ℝ) : clampR v lo hi ≤ hi :=
  max_le h (min_le_left _ _)

theorem clampR_of_mem {v lo hi : ℝ} (h1 : lo ≤ v) (h2 : v ≤ hi) :
    clampR v lo hi = v := by
  unfold clampR
  rw [min_eq_right h2, max_eq_right h1]

@[simp] theorem Vec3.add_x (a b : Vec3) : (a + b).x = a.x + b.x := rfl

@[simp] theorem Vec3.add_y (a b : Vec3) : (a + b).y = a.y + b.y := rfl

@[simp] theorem Vec3.add_z (a b : Vec3) : (a + b).z = a.z + b.z := rfl

@[simp] theorem Vec3.smul_x (c : ℝ) (v : Vec3) : (c • v).x = c * v.x := rfl

@[simp] theorem Vec3.smul_y (c : ℝ) (v : Vec3) : (c • v).y = c * v.y := rfl

@[simp] theorem Vec3.smul_z (c : ℝ) (v : Vec3) : (c • v).z = c * v.z := rfl

@[simp] theorem Vec3.zero_x : (0 : Vec3).x = 0 := rfl

@[simp] theorem Vec3.zero_y : (0 : Vec3).y = 0 := rfl

@[simp] theorem Vec3.zero_z : (0 : Vec3).z = 0 := rfl

theorem Vec3.eq_of_components {a b : Vec3} (hx : a.x = b.x) (hy : a.y = b.y)
    (hz : a.z = b.z) : a = b := by
  cases a
  cases b
  simp_all

theorem Vec3.smul_zero' (c : ℝ) : c • (0 : Vec3) = 0 :=
  Vec3.eq_of_components (by simp) (by simp) (by simp)

theorem Vec3.add_zero' (v : Vec3) : v + 0 = v :=
  Vec3.eq_of_components (by simp) (by simp) (by simp)

theorem Vec3.norm_nonneg (v : Vec3) : 0 ≤ v.norm :=
  Real.sqrt_nonneg _

theorem Vec3.norm_smul (c : ℝ) (v : Vec3) : (c • v).norm = |c| * v.norm := by
  unfold Vec3.norm
  have h : (c • v).x ^ 2 + (c • v).y ^ 2 + (c • v).z ^ 2 =
      c ^ 2 * (v.x ^ 2 + v.y ^ 2 + v.z ^ 2) := by
    simp only [Vec3.smul_x, Vec3.smul_y, Vec3.smul_z]
    ring
  rw [h, Real.sqrt_mul (sq_nonneg c), Real.sqrt_sq_eq_abs]

theorem Vec3.norm_pos {v : Vec3} (h : v ≠ 0) : 0 < v.norm := by
  rcases lt_or_eq_of_le (Vec3.norm_nonneg v) with hlt | heq
  · exact hlt
  · exfalso
    apply h
    have hsq : v.x ^ 2 + v.y ^ 2 + v.z ^ 2 = 0 := by
      have := heq.symm
      unfold Vec3.norm at this
      have h0 : 0 ≤ v.x ^ 2 + v.y ^ 2 + v.z ^ 2 := by positivity
      nlinarith [Real.sq_sqrt h0, this]
    have hx : v.x = 0 := by nlinarith [sq_nonneg v.x, sq_nonneg v.y, sq_nonneg v.z]
    have hy : v.y = 0 := by nlinarith [sq_nonneg v.x, sq_nonneg v.y, sq_nonneg v.z]
    have hz : v.z = 0 := by nlinarith [sq_nonneg v.x, sq_nonneg v.y, sq_nonneg v.z]
    exact Vec3.eq_of_components (by simpa using hx) (by simpa using hy)
      (by simpa using hz)

/-! ## C10 — `seek` saturates out-of-range targets -/

/-- C10: for every argument `p` (including `p < 0` and `p > 1`), `seek(p)`
first clamps `p` to `[0,1]` and then sets
`currentTime = clamp(p,0,1) * duration` and `progress = clamp(p,0,1)`, so
after any seek call the elapsed time lies in `[0, duration]` and the progress
in `[0,1]` — out-of-range targets are silently saturated. -/
theorem seek_saturates (cfg : AnimConfig) (s : AnimState) (p : ℝ)
    (hd : 0 < cfg.duration) :
    (seek cfg s p).progress = clampR p 0 1 ∧
    (seek cfg s p).currentTime = clampR p 0 1 * cfg.duration ∧
    0 ≤ (seek cfg s p).progress ∧ (seek cfg s p).progress ≤ 1 ∧
    0 ≤ (seek cfg s p).currentTime ∧
    (seek cfg s p).currentTime ≤ cfg.duration := by
  have h0 : (0 : ℝ) ≤ clampR p 0 1 := le_clampR p 0 1
  have h1 : clampR p 0 1 ≤ 1 := clampR_le (by norm_num) p
  refine ⟨rfl, rfl, h0, h1, ?_, ?_⟩
  · exact mul_nonneg h0 hd.le
  · calc clampR p 0 1 * cfg.duration ≤ 1 * cfg.duration := by
          exact mul_le_mul_of_nonneg_right h1 hd.le
    _ = cfg.duration := one_mul _

/-- Exercises `seek_saturates` on the sample clock at the out-of-range
target `p = 2`. -/
theorem seek_saturates_witness :
    (0 : ℝ) < sampleConfig.duration ∧
    ((seek sampleConfig initialAnimState 2).progress = clampR 2 0 1 ∧
     (seek sampleConfig initialAnimState 2).currentTime =
       clampR 2 0 1 * sampleConfig.duration ∧
     0 ≤ (seek sampleConfig initialAnimState 2).progress ∧
     (seek sampleConfig initialAnimState 2).progress ≤ 1 ∧
     0 ≤ (seek sampleConfig initialAnimState 2).currentTime ∧
     (seek sampleConfig initialAnimState 2).currentTime ≤
       sampleConfig.duration) :=
  ⟨by norm_num [sampleConfig],
   seek_saturates sampleConfig initialAnimState 2 (by norm_num [sampleConfig])⟩

/-! ## C8 — zoom is always clamped to `[minZoom, maxZoom]` -/

/-- C8: for every finite sequence of `setZoom` calls with arbitrary real
arguments, after each call the gesture state's zoom lies in
`[minZoom, maxZoom]` (defaults 0.5 and 3.0); the same clamping holds for the
zoom writes performed by the pinch and wheel handlers. -/
theorem zoom_always_clamped (limits : GestureLimits)
    (h : limits.minZoom ≤ limits.maxZoom) :
    (∀ (s : GState) (z : ℝ),
       limits.minZoom ≤ (setZoom limits s z).zoom ∧
       (setZoom limits s z).zoom ≤ limits.maxZoom) ∧
    (∀ (s : GState) (zs : List ℝ), zs ≠ [] →
       limits.minZoom ≤ (zs.foldl (setZoom limits) s).zoom ∧
       (zs.foldl (setZoom limits) s).zoom ≤ limits.maxZoom) ∧
    (∀ (sens : ℝ) (s : GState) (delta : ℝ), s.isPinching = true →
       limits.minZoom ≤ (handlePinch true true sens limits s delta).zoom ∧
       (handlePinch true true sens limits s delta).zoom ≤ limits.maxZoom) ∧
    (∀ (sens : ℝ) (s : GState) (deltaY : ℝ),
       limits.minZoom ≤ (handleWheel true true sens limits s deltaY).zoom ∧
       (handleWheel true true sens limits s deltaY).zoom ≤ limits.maxZoom) := by
  have hset : ∀ (s : GState) (z : ℝ),
      limits.minZoom ≤ (setZoom limits s z).zoom ∧
      (setZoom limits s z).zoom ≤ limits.maxZoom := by
    intro s z
    exact ⟨le_clampR _ _ _, clampR_le h _⟩
  refine ⟨hset, ?_, ?_, ?_⟩
  · intro s zs
    induction zs generalizing s with
    | nil => intro hne; exact absurd rfl hne
    | cons z rest ih =>
      intro _
      rcases rest with _ | ⟨z2, rest2⟩
      · simpa using hset s z
      · simpa using ih (setZoom limits s z) (by simp)
  · intro sens s delta hp
    unfold handlePinch
    rw [hp]
    simp only [Bool.true_eq_false, or_false, if_false]
    by_cases hne : clampZoom limits (s.zoom + delta * sens) ≠ s.zoom
    · rw [if_pos hne]
      exact ⟨le_clampR _ _ _, clampR_le h _⟩
    · rw [if_neg hne]
      push_neg at hne
      rw [← hne]
      exact ⟨le_clampR _ _ _, clampR_le h _⟩
  · intro sens s deltaY
    unfold handleWheel
    simp only [Bool.true_eq_false, or_self, if_false]
    by_cases hne : clampZoom limits (s.zoom + -deltaY * sens * 0.001) ≠ s.zoom
    · rw [if_pos hne]
      exact ⟨le_clampR _ _ _, clampR_le h _⟩
    · rw [if_neg hne]
      push_neg at hne
      rw [← hne]
      exact ⟨le_clampR _ _ _, clampR_le h _⟩

/-- Exercises `zoom_always_clamped` on the default limits (0.5, 3.0). -/
theorem zoom_always_clamped_witness :
    sampleLimits.minZoom ≤ sampleLimits.maxZoom ∧
    (GESTURE_MIN_ZOOM ≤ (setZoom sampleLimits pinchingGState 100).zoom ∧
     (setZoom sampleLimits pinchingGState 100).zoom ≤ GESTURE_MAX_ZOOM) :=
  ⟨by norm_num [sampleLimits, GESTURE_MIN_ZOOM, GESTURE_MAX_ZOOM],
   (zoom_always_clamped sampleLimits
     (by norm_num [sampleLimits, GESTURE_MIN_ZOOM, GESTURE_MAX_ZOOM])).1
     pinchingGState 100⟩

/-! ## C2 — the easing factory has a failure path at `('cubic', 'inOut')` -/

/-- C2: the factory is supposed to return a function without throwing for
every `(type, direction)` pair, with unknown types falling back to `linear`.
It does fall back to `linear` on unknown types, and every other pair returns
a function — but `('cubic', 'inOut')` evaluates the identifier
`easeInOutCubic`, which is defined nowhere in the repository, so that call
raises a `ReferenceError` (modelled as `none`) instead of returning a
function. -/
theorem createEasingFunction_failure_path :
    createEasingFunction "cubic" "inOut" = none ∧
    (∀ direction : String, createEasingFunction "unknown" direction = some linear) ∧
    (∀ type direction : String,
       createEasingFunction type direction = none ↔
         type = "cubic" ∧ direction = "inOut") := by
  refine ⟨by simp [createEasingFunction], ?_, ?_⟩
  · intro direction
    simp [createEasingFunction]
  · intro type direction
    unfold createEasingFunction
    by_cases h1 : type = "sine"
    · simp [h1]
    by_cases h2 : type = "cubic"
    · by_cases h3 : direction = "inOut"
      · simp [h1, h2, h3]
      · simp [h1, h2, h3]
    by_cases h4 : type = "back"
    · simp [h1, h2, h4]
    by_cases h5 : type = "elastic"
    · simp [h1, h2, h4, h5]
    by_cases h6 : type = "bounce"
    · simp [h1, h2, h4, h5, h6]
    by_cases h7 : type = "spring"
    · simp [h1, h2, h4, h5, h6, h7]
    · simp [h1, h2, h4, h5, h6, h7]

/-! ## C3 — easing boundary values: sine/cubic/linear hold, `spring` fails at 1 -/

/-- The under-damping discriminant of the default `spring` parameters:
`d = 0.2 / (2 * sqrt 0.8) < 1`. -/
theorem spring_default_underdamped : (0.2 : ℝ) / (2 * Real.sqrt 0.8) < 1 := by
  have hs0 : 0 < Real.sqrt 0.8 := Real.sqrt_pos.mpr (by norm_num)
  have hs2 : Real.sqrt 0.8 ^ 2 = 0.8 := Real.sq_sqrt (by norm_num)
  rw [div_lt_one (by positivity)]
  nlinarith [hs0, hs2]

/-- C3 counterexample: the library's `spring` easing with its default
parameters (tension 0.8, friction 0.2) does not satisfy `f(1) = 1` within
tolerance `1e-6`: `spring(1) = 1 - exp(-1/10) * cos(sqrt(79)/10) ≈ 0.43`. -/
theorem spring_one_misses_one :
    1 / 1000000 < |spring 1 0.8 0.2 - 1| := by
  have hs0 : 0 < Real.sqrt 0.8 := Real.sqrt_pos.mpr (by norm_num)
  have hs2 : Real.sqrt 0.8 ^ 2 = 0.8 := Real.sq_sqrt (by norm_num)
  have hd : (0.2 : ℝ) / (2 * Real.sqrt 0.8) < 1 := spring_default_underdamped
  unfold spring
  rw [if_pos hd]
  simp only []
  have harg : -((0.2 : ℝ) / (2 * Real.sqrt 0.8)) * Real.sqrt 0.8 * 1 = -0.1 := by
    field_simp
    nlinarith [hs2]
  have hd2 : ((0.2 : ℝ) / (2 * Real.sqrt 0.8)) ^ 2 = 1 / 80 := by
    rw [div_pow]
    rw [mul_pow, hs2]
    norm_num
  have hwd : Real.sqrt 0.8 * Real.sqrt (1 - ((0.2 : ℝ) / (2 * Real.sqrt 0.8)) ^ 2) * 1 =
      Real.sqrt 0.79 := by
    rw [hd2]
    rw [mul_one, ← Real.sqrt_mul (by norm_num : (0.8:ℝ) ≥ 0)]
    norm_num
  rw [harg, hwd]
  have hexp : (0.9 : ℝ) ≤ Real.exp (-0.1) := by
    have := Real.add_one_le_exp (-0.1 : ℝ)
    linarith
  have hcos : (0.605 : ℝ) ≤ Real.cos (Real.sqrt 0.79) := by
    have hb := Real.one_sub_sq_div_two_le_cos (x := Real.sqrt 0.79)
    have : Real.sqrt 0.79 ^ 2 = 0.79 := Real.sq_sqrt (by norm_num)
    rw [this] at hb
    linarith
  have hprod : (0.5445 : ℝ) ≤ Real.exp (-0.1) * Real.cos (Real.sqrt 0.79) := by
    have h1 : (0.9 : ℝ) * 0.605 ≤ Real.exp (-0.1) * Real.cos (Real.sqrt 0.79) :=
      mul_le_mul hexp hcos (by norm_num) (le_trans (by norm_num) hexp)
    linarith
  rw [abs_sub_comm, abs_of_nonneg (by linarith)]
  linarith

/-- C3 (amended): the non-overshooting easings `easeInOutSine`,
`easeOutCubic` and `linear` satisfy `f(0) = 0` and `f(1) = 1` exactly (hence
within tolerance `1e-6`), and `spring` with its default tension 0.8 and
friction 0.2 satisfies `f(0) = 0` exactly — but not `f(1) = 1` (see the
counterexample). -/
theorem easing_boundary_values :
    easeInOutSine 0 = 0 ∧ easeInOutSine 1 = 1 ∧
    easeOutCubic 0 = 0 ∧ easeOutCubic 1 = 1 ∧
    linear 0 = 0 ∧ linear 1 = 1 ∧
    spring 0 0.8 0.2 = 0 := by
  refine ⟨?_, ?_, by norm_num [easeOutCubic], by norm_num [easeOutCubic],
    rfl, rfl, ?_⟩
  · unfold easeInOutSine
    rw [mul_zero, Real.cos_zero]
    norm_num
  · unfold easeInOutSine
    rw [mul_one, Real.cos_pi]
    norm_num
  · unfold spring
    rw [if_pos spring_default_underdamped]
    simp only []
    rw [mul_zero, mul_zero, Real.exp_zero, Real.cos_zero]
    norm_num

/-! ## C9 — pausing the clock does not stop the frame writes -/

/-- C9 (code bug): the `useFrame` guard tests the `isPlaying` snapshot that
`useAnimation`'s `useMemo` (deps `[duration, delay]`) captured at mount —
`true`, since `autoplay` defaults to true — and `pause()` only mutates the
ref, so the snapshot never becomes false and ticks after pausing still take
the writing branch: the frame body writes the transform even though the live
clock state is paused (already the first such frame overwrites the mounted
`handleRotationZ = 0` with `cos(0) * 0.01 = 0.01`), and for
`staggerIndex = 1` the written x-position depends on the live physics
velocity, so the transform keeps drifting across "paused" frames instead of
staying bit-for-bit identical. -/
theorem paused_clock_transform_still_written :
    (pause initialAnimState).isPlaying = false ∧
    initialAnimState.isPlaying = true ∧
    (hammerFrame initialAnimState.isPlaying 0 0 (Vec3.mk (-2.5) 1.2 0)
      (EulerR.mk 0 0 0) (Vec3.mk 1 1 1) 0 sampleTransform).handleRotationZ =
      0.01 ∧
    sampleTransform.handleRotationZ = 0 ∧
    hammerFrame initialAnimState.isPlaying 0 0 (Vec3.mk (-2.5) 1.2 0)
      (EulerR.mk 0 0 0) (Vec3.mk 1 1 1) 0 sampleTransform ≠ sampleTransform ∧
    (hammerFrame initialAnimState.isPlaying 0 1 (Vec3.mk (-2.5) 1.2 0)
      (EulerR.mk 0 0 0) (Vec3.mk 1 1 1) (Vec3.mk 0 0 0) sampleTransform).position.x ≠
      (hammerFrame initialAnimState.isPlaying 0 1 (Vec3.mk (-2.5) 1.2 0)
        (EulerR.mk 0 0 0) (Vec3.mk 1 1 1) (Vec3.mk 1 0 0) sampleTransform).position.x := by
  have hrotz : (hammerFrame initialAnimState.isPlaying 0 0 (Vec3.mk (-2.5) 1.2 0)
      (EulerR.mk 0 0 0) (Vec3.mk 1 1 1) 0 sampleTransform).handleRotationZ =
      0.01 := by
    unfold hammerFrame initialAnimState
    norm_num [STAGGER_DELAY, Real.cos_zero]
  refine ⟨rfl, rfl, hrotz, rfl, ?_, ?_⟩
  · intro h
    have hz := congrArg ToolTransform.handleRotationZ h
    rw [hrotz] at hz
    have : (0.01 : ℝ) = 0 := hz.trans rfl
    norm_num at this
  · unfold hammerFrame initialAnimState calculatePhysicsMotion
      calculateFloatingPosition
    norm_num [STAGGER_DELAY, GRAVITY, BUOYANCY_FORCE]

/-! ## C1 — the stored progress is the eased value, not the raw clamp -/

/-- C1 counterexample: with the configured easing `easeOutCubic` (duration
1000 ms, forward, looping), one tick of 0.5 s from the initial state stores
`progress = easeOutCubic(0.5) = 0.875`, while the raw elapsed-time fraction
clamped to `[0,1]` is `500 / 1000 = 0.5` — the invariant
`progress = clamp(elapsedMs/durationMs, 0, 1)` fails for non-linear
easings. -/
theorem progress_stores_eased_value :
    (updateAnimation sampleConfig initialAnimState 0.5).progress ≠
      clampR ((updateAnimation sampleConfig initialAnimState 0.5).currentTime /
        sampleConfig.duration) 0 1 := by
  have hstep : updateAnimation sampleConfig initialAnimState 0.5 =
      { initialAnimState with
          animationTime := 500
          currentTime := 500
          progress := easeOutCubic (clampR (500 / 1000) 0 1) } := by
    unfold updateAnimation sampleConfig initialAnimState
    norm_num
  rw [hstep]
  simp only [sampleConfig]
  have h1 : clampR (500 / 1000 : ℝ) 0 1 = 0.5 := by
    rw [clampR_of_mem (by norm_num) (by norm_num)]
    norm_num
  rw [h1]
  unfold easeOutCubic
  norm_num

/-- C1 (amended): after every advancing `updateAnimation` step (clock playing,
not paused, delay budget exhausted, forward direction), the stored progress
equals the configured easing applied to `clamp(elapsedMs/durationMs, 0, 1)`
evaluated at the post-step elapsed time; it equals the raw clamped fraction
itself only when the easing is the identity (`linear`). -/
theorem updateAnimation_progress_is_eased_clamp (cfg : AnimConfig)
    (s : AnimState) (dt : ℝ) (hplay : s.isPlaying = true)
    (hpause : s.isPaused = false) (hdelay : ¬ s.delayTimer < cfg.delay)
    (hdir : s.direction = Dir.forward) :
    (updateAnimation cfg s dt).progress =
      cfg.easing
        (clampR ((updateAnimation cfg s dt).currentTime / cfg.duration) 0 1) := by
  unfold updateAnimation
  rw [hplay, hpause, hdir]
  simp only [Bool.true_eq_false, Bool.false_eq_true, or_self, if_false]
  rw [if_neg hdelay]
  rw [if_neg (by decide : ¬ (Dir.forward = Dir.reverse))]
  by_cases hraw : (s.currentTime + dt * 1000) / cfg.duration ≥ 1
  · rw [if_pos hraw]
    cases hcl : cfg.loop with
    | true =>
      simp only [if_true]
      have h0 : (0 : ℝ) / cfg.duration = 0 := zero_div _
      rw [h0]
    | false =>
      simp only [Bool.false_eq_true, if_false]
      have hc1 : clampR (1 : ℝ) 0 1 = 1 :=
        clampR_of_mem (by norm_num) (le_refl 1)
      have hc2 : clampR ((s.currentTime + dt * 1000) / cfg.duration) 0 1 = 1 := by
        unfold clampR
        rw [min_eq_left hraw, max_eq_right (by norm_num : (0:ℝ) ≤ 1)]
      rw [hc1, hc2]
  · rw [if_neg hraw]

/-- Exercises `updateAnimation_progress_is_eased_clamp` on the sample clock
(easing `easeOutCubic`) one 0.5 s tick after the start. -/
theorem updateAnimation_progress_is_eased_clamp_witness :
    initialAnimState.isPlaying = true ∧ initialAnimState.isPaused = false ∧
    ¬ initialAnimState.delayTimer < sampleConfig.delay ∧
    initialAnimState.direction = Dir.forward ∧
    (updateAnimation sampleConfig initialAnimState 0.5).progress =
      sampleConfig.easing
        (clampR ((updateAnimation sampleConfig initialAnimState 0.5).currentTime /
          sampleConfig.duration) 0 1) :=
  ⟨rfl, rfl, by norm_num [initialAnimState, sampleConfig], rfl,
   updateAnimation_progress_is_eased_clamp sampleConfig initialAnimState 0.5
     rfl rfl (by norm_num [initialAnimState, sampleConfig]) rfl⟩

/-! ## C6 — pending force lists after `integrateMotion` -/

/-- Closed form of one enabled, positive-`dt` integration step. -/
theorem integrateMotion_spec (cfg : PhysConfig) (s : PhysState) (dt : ℝ)
    (hen : cfg.enabled = true) (hdt : 0 < dt) :
    integrateMotion cfg s dt =
      { position := s.position + dt • (((1 - cfg.damping) ^ dt) •
          (s.velocity + dt • ((1 / cfg.mass) • calculateNetForce s)))
        velocity := ((1 - cfg.damping) ^ dt) •
          (s.velocity + dt • ((1 / cfg.mass) • calculateNetForce s))
        acceleration := (1 / cfg.mass) • calculateNetForce s
        rotation := EulerR.mk
          (s.rotation.x + dt * (((1 - cfg.angularDamping) ^ dt) •
            (s.angularVelocity + dt • ((1 / cfg.mass) • calculateNetTorque s))).x)
          (s.rotation.y + dt * (((1 - cfg.angularDamping) ^ dt) •
            (s.angularVelocity + dt • ((1 / cfg.mass) • calculateNetTorque s))).y)
          (s.rotation.z + dt * (((1 - cfg.angularDamping) ^ dt) •
            (s.angularVelocity + dt • ((1 / cfg.mass) • calculateNetTorque s))).z)
        angularVelocity := ((1 - cfg.angularDamping) ^ dt) •
          (s.angularVelocity + dt • ((1 / cfg.mass) • calculateNetTorque s))
        angularAcceleration := (1 / cfg.mass) • calculateNetTorque s
        forces := []
        torques := [] } := by
  unfold integrateMotion applyDamping clearForces
  rw [hen]
  rw [if_neg (by simp [hdt.not_le] : ¬((true = false) ∨ dt ≤ 0))]
  rfl

/-- A step with no pending forces: the acceleration is zero and the velocity
changes only by the damping factor. -/
theorem integrateMotion_no_pending (cfg : PhysConfig) (s : PhysState) (dt : ℝ)
    (hen : cfg.enabled = true) (hdt : 0 < dt) (hf : s.forces = [])
    (ht : s.torques = []) :
    (integrateMotion cfg s dt).acceleration = 0 ∧
    (integrateMotion cfg s dt).velocity = ((1 - cfg.damping) ^ dt) • s.velocity ∧
    (integrateMotion cfg s dt).forces = [] ∧
    (integrateMotion cfg s dt).torques = [] := by
  have hnf : calculateNetForce s = 0 := by rw [calculateNetForce, hf]; rfl
  rw [integrateMotion_spec cfg s dt hen hdt]
  simp [hnf, Vec3.smul_zero', Vec3.add_zero']

/-- C6 counterexample: with the integrator enabled and one pending unit
force, `integrateMotion(0)` returns with the pending list untouched — the
`deltaTime <= 0` early return skips the clear, so the force is still pending
(and would produce nonzero acceleration at the next positive step). -/
theorem integrateMotion_zero_dt_keeps_pending :
    (integrateMotion samplePhysConfig physStateWithForce 0).forces =
      [Vec3.mk 1 0 0] ∧
    (integrateMotion samplePhysConfig physStateWithForce 0).forces ≠ [] := by
  have h : integrateMotion samplePhysConfig physStateWithForce 0 =
      physStateWithForce := by
    unfold integrateMotion
    rw [if_pos (Or.inr le_rfl)]
  rw [h]
  exact ⟨rfl, by simp [physStateWithForce]⟩

/-- C6 (amended): for an enabled integrator and `dt > 0`, the pending force
and torque lists are empty immediately after `integrateMotion(dt)` returns,
and a subsequent positive-`dt` step with no new forces computes zero
acceleration and changes velocity only by the damping factor.  When `dt <= 0`
or the integrator is disabled, the call is a no-op that leaves the pending
lists (and everything else) unchanged, so the claim's "including dt <= 0 and
every enabled/disabled configuration" part fails (see the counterexample). -/
theorem integrateMotion_clears_pending (cfg : PhysConfig) (s : PhysState)
    (dt : ℝ) (hen : cfg.enabled = true) (hdt : 0 < dt) :
    (integrateMotion cfg s dt).forces = [] ∧
    (integrateMotion cfg s dt).torques = [] ∧
    (∀ dt' : ℝ, 0 < dt' →
       (integrateMotion cfg (integrateMotion cfg s dt) dt').acceleration = 0 ∧
       (integrateMotion cfg (integrateMotion cfg s dt) dt').velocity =
         ((1 - cfg.damping) ^ dt') • (integrateMotion cfg s dt).velocity) ∧
    (∀ dt' : ℝ, dt' ≤ 0 → integrateMotion cfg s dt' = s) := by
  have hclear : (integrateMotion cfg s dt).forces = [] ∧
      (integrateMotion cfg s dt).torques = [] := by
    rw [integrateMotion_spec cfg s dt hen hdt]
    exact ⟨rfl, rfl⟩
  refine ⟨hclear.1, hclear.2, ?_, ?_⟩
  · intro dt' hdt'
    have h := integrateMotion_no_pending cfg (integrateMotion cfg s dt) dt'
      hen hdt' hclear.1 hclear.2
    exact ⟨h.1, h.2.1⟩
  · intro dt' hdt'
    unfold integrateMotion
    rw [if_pos (Or.inr hdt')]

/-- Exercises `integrateMotion_clears_pending` on the sample configuration
and a state with one pending force, at `dt = 1/60`. -/
theorem integrateMotion_clears_pending_witness :
    samplePhysConfig.enabled = true ∧ (0 : ℝ) < 1 / 60 ∧
    (integrateMotion samplePhysConfig physStateWithForce (1 / 60)).forces = [] ∧
    (integrateMotion samplePhysConfig physStateWithForce (1 / 60)).torques = [] :=
  ⟨rfl, by norm_num,
   (integrateMotion_clears_pending samplePhysConfig physStateWithForce (1 / 60)
     rfl (by norm_num)).1,
   (integrateMotion_clears_pending samplePhysConfig physStateWithForce (1 / 60)
     rfl (by norm_num)).2.1⟩

/-! ## C7 — damping strictly shrinks the velocity toward zero -/

/-- C7: with empty force lists, damping in `(0,1)` and any positive `dt`,
each integration step multiplies the velocity by
`pow(1 - damping, dt) ∈ (0,1)`, so `|velocity|` never increases, strictly
decreases while nonzero, and — along any run of steps whose deltas are
bounded below by some `δ > 0` — converges to 0. -/
theorem damping_shrinks_velocity (cfg : PhysConfig) (hen : cfg.enabled = true)
    (hd0 : 0 < cfg.damping) (hd1 : cfg.damping < 1) :
    (∀ dt : ℝ, 0 < dt →
       0 < (1 - cfg.damping) ^ dt ∧ (1 - cfg.damping) ^ dt < 1) ∧
    (∀ (s : PhysState) (dt : ℝ), s.forces = [] → s.torques = [] → 0 < dt →
       (integrateMotion cfg s dt).velocity =
         ((1 - cfg.damping) ^ dt) • s.velocity ∧
       (integrateMotion cfg s dt).velocity.norm ≤ s.velocity.norm ∧
       (s.velocity ≠ 0 →
         (integrateMotion cfg s dt).velocity.norm < s.velocity.norm)) ∧
    (∀ (s : PhysState) (dts : ℕ → ℝ) (lo : ℝ), s.forces = [] → s.torques = [] →
       0 < lo → (∀ i, lo ≤ dts i) →
       Filter.Tendsto (fun n => (seqStates cfg s dts n).velocity.norm)
         Filter.atTop (nhds 0)) := by
  have hb0 : 0 < 1 - cfg.damping := by linarith
  have hb1 : 1 - cfg.damping < 1 := by linarith
  have hfac : ∀ dt : ℝ, 0 < dt →
      0 < (1 - cfg.damping) ^ dt ∧ (1 - cfg.damping) ^ dt < 1 := by
    intro dt hdt
    exact ⟨Real.rpow_pos_of_pos hb0 dt, Real.rpow_lt_one hb0.le hb1 hdt⟩
  have hstep : ∀ (s : PhysState) (dt : ℝ), s.forces = [] → s.torques = [] →
      0 < dt →
      (integrateMotion cfg s dt).velocity =
        ((1 - cfg.damping) ^ dt) • s.velocity ∧
      (integrateMotion cfg s dt).velocity.norm ≤ s.velocity.norm ∧
      (s.velocity ≠ 0 →
        (integrateMotion cfg s dt).velocity.norm < s.velocity.norm) := by
    intro s dt hf ht hdt
    obtain ⟨hfpos, hflt⟩ := hfac dt hdt
    have hv := (integrateMotion_no_pending cfg s dt hen hdt hf ht).2.1
    have hnorm : (integrateMotion cfg s dt).velocity.norm =
        ((1 - cfg.damping) ^ dt) * s.velocity.norm := by
      rw [hv, Vec3.norm_smul, abs_of_pos hfpos]
    refine ⟨hv, ?_, ?_⟩
    · rw [hnorm]
      exact mul_le_of_le_one_left (Vec3.norm_nonneg _) hflt.le
    · intro hvne
      rw [hnorm]
      have hpos := Vec3.norm_pos hvne
      nlinarith
  refine ⟨hfac, hstep, ?_⟩
  intro s dts lo hf ht hlo hdts
  set r : ℝ := (1 - cfg.damping) ^ lo with hr
  have hr0 : 0 < r := Real.rpow_pos_of_pos hb0 lo
  have hr1 : r < 1 := Real.rpow_lt_one hb0.le hb1 hlo
  have hchain : ∀ n : ℕ, (seqStates cfg s dts n).forces = [] ∧
      (seqStates cfg s dts n).torques = [] ∧
      (seqStates cfg s dts n).velocity.norm ≤ r ^ n * s.velocity.norm := by
    intro n
    induction n with
    | zero => exact ⟨hf, ht, by simp [seqStates]⟩
    | succ k ih =>
      obtain ⟨ihf, iht, ihn⟩ := ih
      have hdtk : 0 < dts k := lt_of_lt_of_le hlo (hdts k)
      have hcl := integrateMotion_no_pending cfg (seqStates cfg s dts k) (dts k)
        hen hdtk ihf iht
      refine ⟨hcl.2.2.1, hcl.2.2.2, ?_⟩
      have hv := hcl.2.1
      have hfk : (1 - cfg.damping) ^ dts k ≤ r :=
        Real.rpow_le_rpow_of_exponent_ge hb0 hb1.le (hdts k)
      have hfkpos : 0 < (1 - cfg.damping) ^ dts k :=
        Real.rpow_pos_of_pos hb0 _
      have heq : (seqStates cfg s dts (k + 1)).velocity.norm =
          ((1 - cfg.damping) ^ dts k) * (seqStates cfg s dts k).velocity.norm := by
        show (integrateMotion cfg (seqStates cfg s dts k) (dts k)).velocity.norm = _
        rw [hv, Vec3.norm_smul, abs_of_pos hfkpos]
      rw [heq, pow_succ]
      calc ((1 - cfg.damping) ^ dts k) * (seqStates cfg s dts k).velocity.norm
          ≤ r * (seqStates cfg s dts k).velocity.norm :=
            mul_le_mul_of_nonneg_right hfk (Vec3.norm_nonneg _)
        _ ≤ r * (r ^ k * s.velocity.norm) :=
            mul_le_mul_of_nonneg_left ihn hr0.le
        _ = r ^ k * r * s.velocity.norm := by ring
  have hgeo : Filter.Tendsto (fun n : ℕ => r ^ n * s.velocity.norm)
      Filter.atTop (nhds 0) := by
    have := (tendsto_pow_atTop_nhds_zero_of_lt_one hr0.le hr1).mul_const
      s.velocity.norm
    simpa using this
  exact squeeze_zero (fun n => Vec3.norm_nonneg _) (fun n => (hchain n).2.2) hgeo

/-- Exercises `damping_shrinks_velocity` with the default damping 0.15 on a
unit-velocity state: one 1 s step strictly shrinks the speed. -/
theorem damping_shrinks_velocity_witness :
    samplePhysConfig.enabled = true ∧ (0 : ℝ) < samplePhysConfig.damping ∧
    samplePhysConfig.damping < 1 ∧ movingPhysState.forces = [] ∧
    movingPhysState.torques = [] ∧ (0 : ℝ) < 1 ∧ movingPhysState.velocity ≠ 0 ∧
    (integrateMotion samplePhysConfig movingPhysState 1).velocity.norm <
      movingPhysState.velocity.norm :=
  ⟨rfl, by norm_num [samplePhysConfig], by norm_num [samplePhysConfig], rfl,
   rfl, by norm_num, by
     intro h
     have : (1 : ℝ) = 0 := congrArg Vec3.x h
     norm_num at this,
   ((damping_shrinks_velocity samplePhysConfig rfl
       (by norm_num [samplePhysConfig]) (by norm_num [samplePhysConfig])).2.1
     movingPhysState 1 rfl rfl (by norm_num)).2.2
     (by
       intro h
       have : (1 : ℝ) = 0 := congrArg Vec3.x h
       norm_num at this)⟩

/-! ## C4 — loop wraps reset the elapsed time and count exactly one each -/

/-- One tick of a playing, forward, looping clock past its delay: wraps to
`currentTime = 0` with `loopCount + 1` exactly when the accumulated time
reaches the duration, else just advances. -/
theorem updateAnimation_forward_loop_tick (cfg : AnimConfig) (s : AnimState)
    (dt : ℝ) (hloop : cfg.loop = true) (hcfgdir : cfg.dirConfig = DirConfig.forward)
    (hplay : s.isPlaying = true) (hpause : s.isPaused = false)
    (hdir : s.direction = Dir.forward) (hdelay : ¬ s.delayTimer < cfg.delay)
    (hd : 0 < cfg.duration) :
    updateAnimation cfg s dt =
      if s.currentTime + dt * 1000 ≥ cfg.duration then
        { s with hasStarted := s.hasStarted || cfg.hasOnStart
                 animationTime := s.animationTime + dt * 1000
                 loopCount := s.loopCount + 1
                 currentTime := 0
                 progress := cfg.easing (clampR 0 0 1) }
      else
        { s with hasStarted := s.hasStarted || cfg.hasOnStart
                 animationTime := s.animationTime + dt * 1000
                 currentTime := s.currentTime + dt * 1000
                 progress := cfg.easing
                   (clampR ((s.currentTime + dt * 1000) / cfg.duration) 0 1) } := by
  unfold updateAnimation
  rw [hplay, hpause, hdir, hloop]
  simp only [Bool.true_eq_false, Bool.false_eq_true, or_self, if_false]
  rw [if_neg hdelay]
  rw [if_neg (by decide : ¬ (Dir.forward = Dir.reverse))]
  rw [hcfgdir]
  rw [if_neg (by decide : ¬ (DirConfig.forward = DirConfig.alternate))]
  by_cases h : s.currentTime + dt * 1000 ≥ cfg.duration
  · rw [if_pos ((one_le_div hd).mpr h), if_pos h]
    simp only [if_true]
  · rw [if_neg (fun hc => h ((one_le_div hd).mp hc)), if_neg h]

/-- Unfolding one application of `wrapStep`. -/
theorem wrapStep_apply (d t : ℝ) (n : ℕ) (a : ℝ) :
    wrapStep d (t, n) a = if t + a ≥ d then ((0 : ℝ), n + 1) else (t + a, n) :=
  rfl

/-- Count additivity of the wrap-counter fold: starting the counter at `n`
shifts the count by `n` and leaves the elapsed component unchanged. -/
theorem wrapFold_shift (d : ℝ) (l : List ℝ) : ∀ (t : ℝ) (n : ℕ),
    (l.foldl (wrapStep d) (t, n)).1 = (l.foldl (wrapStep d) (t, 0)).1 ∧
    (l.foldl (wrapStep d) (t, n)).2 = n + (l.foldl (wrapStep d) (t, 0)).2 := by
  induction l with
  | nil => intro t n; simp
  | cons a l ih =>
    intro t n
    simp only [List.foldl_cons, wrapStep_apply]
    by_cases h : t + a ≥ d
    · rw [if_pos h, if_pos h]
      refine ⟨((ih 0 (n + 1)).1).trans ((ih 0 1).1).symm, ?_⟩
      rw [(ih 0 (n + 1)).2, (ih 0 1).2]
      omega
    · rw [if_neg h, if_neg h]
      exact ih (t + a) n

/-- C4: a looping, forward clock driven by positive deltas each shorter than
the duration wraps exactly as the synthetic wrap counter predicts: whenever
the accumulated `currentTime` reaches `durationMs` it resets to exactly 0 and
`loopCount` grows by exactly 1, so after N synthetic wraps
`loopCount = initial + N`; the elapsed time always stays in
`[0, durationMs)`, the clock never marks itself complete and keeps playing. -/
theorem loop_wrap_invariant (cfg : AnimConfig) (hloop : cfg.loop = true)
    (hcfgdir : cfg.dirConfig = DirConfig.forward) (hd : 0 < cfg.duration) :
    ∀ (deltas : List ℝ) (s : AnimState),
      s.isPlaying = true → s.isPaused = false → s.isComplete = false →
      s.direction = Dir.forward → ¬ s.delayTimer < cfg.delay →
      0 ≤ s.currentTime → s.currentTime < cfg.duration →
      (∀ d ∈ deltas, 0 < d * 1000 ∧ d * 1000 < cfg.duration) →
      (runTicks cfg s deltas).loopCount = s.loopCount +
        (wrapSim cfg.duration s.currentTime (deltas.map fun d => d * 1000)).2 ∧
      (runTicks cfg s deltas).currentTime =
        (wrapSim cfg.duration s.currentTime (deltas.map fun d => d * 1000)).1 ∧
      (runTicks cfg s deltas).isComplete = false ∧
      (runTicks cfg s deltas).isPlaying = true ∧
      0 ≤ (runTicks cfg s deltas).currentTime ∧
      (runTicks cfg s deltas).currentTime < cfg.duration := by
  intro deltas
  induction deltas with
  | nil =>
    intro s hplay hpause hcomp hdir hdelay hct0 hct1 _
    refine ⟨by simp [runTicks, wrapSim], by simp [runTicks, wrapSim], hcomp,
      hplay, hct0, hct1⟩
  | cons dt rest ih =>
    intro s hplay hpause hcomp hdir hdelay hct0 hct1 hds
    obtain ⟨hdt0, hdt1⟩ := hds dt (List.mem_cons_self dt rest)
    have htick := updateAnimation_forward_loop_tick cfg s dt hloop hcfgdir
      hplay hpause hdir hdelay hd
    have hrest : ∀ d ∈ rest, 0 < d * 1000 ∧ d * 1000 < cfg.duration :=
      fun d hdmem => hds d (List.mem_cons_of_mem dt hdmem)
    have hrun : runTicks cfg s (dt :: rest) =
        runTicks cfg (updateAnimation cfg s dt) rest := rfl
    have hsim : wrapSim cfg.duration s.currentTime
        ((dt :: rest).map fun d => d * 1000) =
        (rest.map fun d => d * 1000).foldl (wrapStep cfg.duration)
          (wrapStep cfg.duration (s.currentTime, 0) (dt * 1000)) := rfl
    rw [hrun, hsim]
    by_cases h : s.currentTime + dt * 1000 ≥ cfg.duration
    · have hstep : wrapStep cfg.duration (s.currentTime, 0) (dt * 1000) =
          ((0 : ℝ), 1) := by
        rw [wrapStep_apply, if_pos h]
      rw [htick, if_pos h, hstep]
      obtain ⟨ih1, ih2, ih3, ih4, ih5, ih6⟩ :=
        ih { s with hasStarted := s.hasStarted || cfg.hasOnStart
                    animationTime := s.animationTime + dt * 1000
                    loopCount := s.loopCount + 1
                    currentTime := 0
                    progress := cfg.easing (clampR 0 0 1) }
          hplay hpause hcomp hdir hdelay le_rfl hd hrest
      have e1 : ({ s with hasStarted := s.hasStarted || cfg.hasOnStart
                          animationTime := s.animationTime + dt * 1000
                          loopCount := s.loopCount + 1
                          currentTime := 0
                          progress := cfg.easing (clampR 0 0 1) } :
          AnimState).loopCount = s.loopCount + 1 := rfl
      have e2 : ({ s with hasStarted := s.hasStarted || cfg.hasOnStart
                          animationTime := s.animationTime + dt * 1000
                          loopCount := s.loopCount + 1
                          currentTime := 0
                          progress := cfg.easing (clampR 0 0 1) } :
          AnimState).currentTime = (0 : ℝ) := rfl
      rw [e1, e2] at ih1
      rw [e2] at ih2
      simp only [wrapSim] at ih1 ih2
      have hsh := wrapFold_shift cfg.duration (rest.map fun d => d * 1000) 0 1
      refine ⟨?_, ?_, ih3, ih4, ih5, ih6⟩
      · rw [ih1, hsh.2]
        omega
      · rw [ih2]
        exact hsh.1.symm
    · have hstep : wrapStep cfg.duration (s.currentTime, 0) (dt * 1000) =
          (s.currentTime + dt * 1000, 0) := by
        rw [wrapStep_apply, if_neg h]
      rw [htick, if_neg h, hstep]
      exact ih { s with hasStarted := s.hasStarted || cfg.hasOnStart
                        animationTime := s.animationTime + dt * 1000
                        currentTime := s.currentTime + dt * 1000
                        progress := cfg.easing
                          (clampR ((s.currentTime + dt * 1000) / cfg.duration) 0 1) }
        hplay hpause hcomp hdir hdelay (by linarith) (by linarith [not_le.mp h])
        hrest

/-- Exercises `loop_wrap_invariant` on the sample 1000 ms looping clock with
two 0.6 s ticks: the second tick crosses the duration, so the synthetic wrap
counter records exactly one wrap. -/
theorem loop_wrap_invariant_witness :
    sampleConfig.loop = true ∧ sampleConfig.dirConfig = DirConfig.forward ∧
    (0 : ℝ) < sampleConfig.duration ∧
    (wrapSim sampleConfig.duration initialAnimState.currentTime
      (([0.6, 0.6] : List ℝ).map fun d => d * 1000)).2 = 1 ∧
    ((runTicks sampleConfig initialAnimState [0.6, 0.6]).loopCount =
       initialAnimState.loopCount +
         (wrapSim sampleConfig.duration initialAnimState.currentTime
           (([0.6, 0.6] : List ℝ).map fun d => d * 1000)).2 ∧
     (runTicks sampleConfig initialAnimState [0.6, 0.6]).currentTime =
       (wrapSim sampleConfig.duration initialAnimState.currentTime
         (([0.6, 0.6] : List ℝ).map fun d => d * 1000)).1 ∧
     (runTicks sampleConfig initialAnimState [0.6, 0.6]).isComplete = false ∧
     (runTicks sampleConfig initialAnimState [0.6, 0.6]).isPlaying = true ∧
     0 ≤ (runTicks sampleConfig initialAnimState [0.6, 0.6]).currentTime ∧
     (runTicks sampleConfig initialAnimState [0.6, 0.6]).currentTime <
       sampleConfig.duration) :=
  ⟨rfl, rfl, by norm_num [sampleConfig], by
     norm_num [wrapSim, wrapStep_apply, sampleConfig, initialAnimState,
       -Prod.mk_zero_zero],
   loop_wrap_invariant sampleConfig rfl rfl (by norm_num [sampleConfig])
     [0.6, 0.6] initialAnimState rfl rfl rfl rfl
     (by norm_num [initialAnimState, sampleConfig]) le_rfl
     (by norm_num [initialAnimState, sampleConfig])
     (by
       intro d hdm
       simp only [List.mem_cons, List.not_mem_nil, or_false, or_self] at hdm
       subst hdm
       norm_num [sampleConfig])⟩

/-! ## C5 — the governor's quality stepping never fires in this build -/

/-- C5 (code bug): `adjustQuality` returns before writing `currentQuality`
whenever the `gl` or `scene` ref is null, and those refs are assigned only
inside the frame-loop effect's `try` block, whose `require()` / `useThree()`
calls always throw in this Vite ESM build — so the governor never changes
the quality level, no matter what the rolling averages say.  Concretely: in
a state the program reaches (quality `high`, refs null), with the timer
fired and the step-down thresholds met (20 fps and 50 ms against a 60 fps
target), the claim requires a step down to `medium`, but the evaluation
leaves `high`. -/
theorem adaptiveQualityControl_never_steps :
    (∀ (cfg : PerfConfig) (s : PerfState) (dt : ℝ), s.glPresent = false →
       (adaptiveQualityControl cfg s dt).currentQuality = s.currentQuality) ∧
    samplePerfConfig.monitoringInterval ≤
      strugglingPerfState.adaptiveTimer + 0.2 * 1000 ∧
    calculateAverageFPS strugglingPerfState <
      samplePerfConfig.targetFPS * 0.8 ∧
    calculateAverageFrameTime strugglingPerfState > 20 ∧
    qualitySpecStep samplePerfConfig.targetFPS
      (calculateAverageFPS strugglingPerfState)
      (calculateAverageFrameTime strugglingPerfState)
      strugglingPerfState.currentQuality = Quality.medium ∧
    (adaptiveQualityControl samplePerfConfig strugglingPerfState 0.2).currentQuality =
      Quality.high := by
  have hnever : ∀ (cfg : PerfConfig) (s : PerfState) (dt : ℝ),
      s.glPresent = false →
      (adaptiveQualityControl cfg s dt).currentQuality = s.currentQuality := by
    intro cfg s dt hgl
    unfold adaptiveQualityControl adjustQuality
    simp only [hgl]
    split_ifs <;> simp_all
  have havg : calculateAverageFPS strugglingPerfState = 20 := by
    norm_num [calculateAverageFPS, strugglingPerfState]
  have hft : calculateAverageFrameTime strugglingPerfState = 50 := by
    norm_num [calculateAverageFrameTime, strugglingPerfState]
  refine ⟨hnever, by norm_num [samplePerfConfig, strugglingPerfState], ?_, ?_,
    ?_, hnever samplePerfConfig strugglingPerfState 0.2 rfl⟩
  · rw [havg]
    norm_num [samplePerfConfig]
  · rw [hft]
    norm_num
  · rw [havg, hft]
    norm_num [qualitySpecStep, stepDown, samplePerfConfig, strugglingPerfState]

end Animation
